import Mathlib

/-!
Shallow embedding of the airo-hurane video-tracking pipeline.

The embedding covers:
* `src/tracking/object_tracker.py` — the statistics engine (`ObjectTracker`):
  Python `Set[int]` state is modelled by duplicate-free `List ℕ` with
  insert-if-absent semantics (`setAdd` / `setUpdate`, mirroring `set.add` /
  `set.update`); `sorted(list(...))` is modelled by `List.insertionSort`.
* `src/processors/video_processor.py` — the per-video frame loop
  (`process_video`) and the batch driver (`process_multiple_videos`).
  Wall-clock timing, printing and the display surface are external effects
  and are not part of the state; Python exceptions are modelled by `Except`.
* `src/visualization/frame_renderer.py` — frame buffers live in an explicit
  `Store` so that in-place mutation (`cv2.rectangle(frame, ...)`) versus
  copying (`frame.copy()`) is observable; the pixel-level rasterisers
  (`cv2.rectangle`, `cv2.putText`, `cv2.getTextSize`) are opaque external
  primitives, passed in as a `DrawPrims` record.
* `src/utils.py` — `get_video_files`: file names are modelled as lists of
  character codes (`FileName`), `Path.glob (s!"*(ext)")` as a suffix match,
  and Python `sorted` as an insertion sort under the code-point
  lexicographic order `strLe`.
-/

/-! ### Python `set` model (insert-if-absent lists) -/

/-- Python `set.add`: insert `x` if it is not already present. -/
def setAdd (l : List ℕ) (x : ℕ) : List ℕ :=
  if x ∈ l then l else x :: l

/-- Python `set.update`: insert every element of `xs`. -/
def setUpdate (l : List ℕ) (xs : List ℕ) : List ℕ :=
  xs.foldl setAdd l

/-! ### `ObjectTracker` (src/tracking/object_tracker.py)

The YOLO model held by the Python object is an external collaborator; the
embedded state is exactly the statistics fields set in `__init__`.  The
external tracker's output for one frame is abstracted to the list of
track ids it reports (the only part of a `TrackBatch` the statistics read). -/

structure ObjectTracker where
  unique_ids : List ℕ
  current_frame_count : ℕ
  total_unique_count : ℕ
  frame_number : ℕ
deriving DecidableEq

/-- Snapshot returned by `ObjectTracker.get_statistics` (a Python dict). -/
structure Statistics where
  frames_processed : ℕ
  current_count : ℕ
  total_unique : ℕ
  unique_ids : List ℕ
deriving DecidableEq

namespace ObjectTracker

/-- State after `__init__`: empty id set, zero counters. -/
def init : ObjectTracker := ⟨[], 0, 0, 0⟩

/-- `track_frame`, statistics part: bump `frame_number`, collect the batch's
ids into `current_ids`, update `unique_ids`, and return
`(new state, current_count, total_unique_count)`.  `batch` is the list of
track ids extracted from the external model's boxes. -/
def track_frame (s : ObjectTracker) (batch : List ℕ) : ObjectTracker × ℕ × ℕ :=
  let current_ids := setUpdate [] batch
  let new_unique := setUpdate s.unique_ids current_ids
  ({ unique_ids := new_unique,
     current_frame_count := current_ids.length,
     total_unique_count := new_unique.length,
     frame_number := s.frame_number + 1 },
   current_ids.length, new_unique.length)

/-- `reset`: clear the id set and zero every counter. -/
def reset (_ : ObjectTracker) : ObjectTracker := ⟨[], 0, 0, 0⟩

/-- `get_statistics`: read the stored fields; ids are reported sorted. -/
def get_statistics (s : ObjectTracker) : Statistics :=
  ⟨s.frame_number, s.current_frame_count, s.total_unique_count,
   List.insertionSort (· ≤ ·) s.unique_ids⟩

/-- `get_statistics` as a state transformer: the method body reads `self`
and builds a dict; it performs no assignment, so the state it leaves
behind is the state it was given. -/
def get_statistics_call (s : ObjectTracker) : Statistics × ObjectTracker :=
  (get_statistics s, s)

end ObjectTracker

/-- Feed a sequence of per-frame batches, collecting the returned
`(current_count, total_unique_count)` pairs and the final state. -/
def runTrace (s : ObjectTracker) (batches : List (List ℕ)) :
    List (ℕ × ℕ) × ObjectTracker :=
  batches.foldl
    (fun acc b =>
      let r := acc.2.track_frame b
      (acc.1 ++ [(r.2.1, r.2.2)], r.1))
    ([], s)

/-- Feed a sequence of per-frame batches, keeping only the final state. -/
def runBatches (s : ObjectTracker) (batches : List (List ℕ)) : ObjectTracker :=
  batches.foldl (fun st b => (st.track_frame b).1) s

/-- Union of the identity sets of a sequence of batches. -/
def unionIds (batches : List (List ℕ)) : Finset ℕ :=
  batches.foldr (fun b acc => b.toFinset ∪ acc) ∅

/-! ### `VideoProcessor` (src/processors/video_processor.py) -/

namespace Config

/-- `Config.SKIP_FRAMES = 0` (process all frames). -/
def SKIP_FRAMES : ℕ := 0

end Config

/-- Per-session loop state of `process_video`'s `while True` body.
`processed_indices` is ghost instrumentation recording the 1-based indices
of the frames that reached the tracker (one entry per `track_frame` call). -/
structure LoopState where
  frame_count : ℕ
  processed_count : ℕ
  processed_indices : List ℕ
  tracker : ObjectTracker
deriving DecidableEq

/-- Loop state at entry to the frame loop (after `self.tracker.reset()`). -/
def initLoop : LoopState := ⟨0, 0, [], ObjectTracker.reset ObjectTracker.init⟩

/-- One iteration of the frame loop on a successfully read frame:
increment `frame_count`; if `skip_frames > 0` and the index is not a
multiple of `skip_frames + 1`, `continue` without touching the tracker;
otherwise call `track_frame` (rendering, writing and display do not touch
this state) and increment `processed_count`.  `track` is the external
model: the batch of ids it reports for a given frame. -/
def stepFrame {α : Type} (skip_frames : ℕ) (track : α → List ℕ)
    (st : LoopState) (frame : α) : LoopState :=
  let fc := st.frame_count + 1
  if skip_frames > 0 ∧ fc % (skip_frames + 1) ≠ 0 then
    { st with frame_count := fc }
  else
    { frame_count := fc,
      processed_count := st.processed_count + 1,
      processed_indices := st.processed_indices ++ [fc],
      tracker := (st.tracker.track_frame (track frame)).1 }

/-- The frame loop over a finite stream of frames. -/
def processFrames {α : Type} (skip_frames : ℕ) (track : α → List ℕ)
    (frames : List α) : LoopState :=
  frames.foldl (stepFrame skip_frames track) initLoop

/-- Exceptions raised by `process_video`. -/
inductive VPError where
  | fileNotFound (path : String)
  | couldNotOpen (path : String)
deriving DecidableEq

/-- A video source: its path, whether the path exists
(`video_path.exists()`), whether capture opens (`cap.isOpened()`), and the
external tracker's per-frame id batches for its frames. -/
structure VideoSource where
  path : String
  present : Bool
  openable : Bool
  frames : List (List ℕ)

/-- Result dict of a completed `process_video` (wall-clock fields are
external and omitted). -/
structure SessionResult where
  video_path : String
  frames_processed : ℕ
  statistics : Statistics
deriving DecidableEq

/-- `process_video`: raise `FileNotFoundError` if the path does not exist,
`ValueError` if capture cannot be opened; otherwise reset the tracker, run
the frame loop, and return the result dict built from `processed_count`
and `get_statistics`. -/
def process_video (src : VideoSource) (skip_frames : ℕ) :
    Except VPError SessionResult :=
  if src.present = false then
    Except.error (VPError.fileNotFound src.path)
  else if src.openable = false then
    Except.error (VPError.couldNotOpen src.path)
  else
    let st := processFrames skip_frames (fun b => b) src.frames
    Except.ok ⟨src.path, st.processed_count,
               ObjectTracker.get_statistics st.tracker⟩

/-- `process_multiple_videos`: run `process_video` on each source in order,
appending each result.  The loop body has no exception handler, so an
error from any session propagates to the caller and the partial `results`
list is lost. -/
def process_multiple_videos (video_paths : List VideoSource) :
    Except VPError (List SessionResult) :=
  match video_paths with
  | [] => Except.ok []
  | src :: rest =>
    match process_video src Config.SKIP_FRAMES with
    | Except.error e => Except.error e
    | Except.ok r =>
      match process_multiple_videos rest with
      | Except.error e => Except.error e
      | Except.ok rs => Except.ok (r :: rs)

/-! ### `FrameRenderer` (src/visualization/frame_renderer.py)

Frames are numpy arrays; here a `Buffer` is rows of BGR pixels.  Arrays
are heap objects mutated in place, so buffers live in a `Store` addressed
by `Ref`s: `frame.copy()` allocates, `cv2.rectangle(frame, ...)` rewrites
the buffer its `Ref` points at.  The rasterisers themselves are external
(`DrawPrims`). -/

abbrev Color := ℕ × ℕ × ℕ

abbrev Buffer := List (List Color)

abbrev Ref := ℕ

/-- The heap of frame buffers. -/
structure Store where
  bufs : List Buffer
deriving DecidableEq

/-- Read the buffer a reference points at. -/
def Store.read (st : Store) (r : Ref) : Buffer :=
  st.bufs.getD r []

/-- Overwrite the buffer a reference points at (in-place mutation). -/
def Store.write (st : Store) (r : Ref) (b : Buffer) : Store :=
  ⟨st.bufs.set r b⟩

/-- Allocate a fresh buffer holding `b` (used for `frame.copy()`). -/
def Store.alloc (st : Store) (b : Buffer) : Store × Ref :=
  (⟨st.bufs ++ [b]⟩, st.bufs.length)

/-- The external OpenCV drawing primitives, as pure buffer transformers:
`rect b p1 p2 color thickness`, `putText b text org fontScale color
thickness`, `getTextSize text fontScale thickness = ((w, h), baseline)`. -/
structure DrawPrims where
  rect : Buffer → (ℤ × ℤ) → (ℤ × ℤ) → Color → ℤ → Buffer
  putText : Buffer → String → (ℤ × ℤ) → ℚ → Color → ℕ → Buffer
  getTextSize : String → ℚ → ℕ → (ℤ × ℤ) × ℤ

/-- `cv2.rectangle(frame, p1, p2, color, thickness)`: mutate in place. -/
def cv2_rectangle (P : DrawPrims) (st : Store) (r : Ref)
    (p1 p2 : ℤ × ℤ) (c : Color) (t : ℤ) : Store :=
  st.write r (P.rect (st.read r) p1 p2 c t)

/-- `cv2.putText(frame, text, org, font, scale, color, thickness)`. -/
def cv2_putText (P : DrawPrims) (st : Store) (r : Ref) (text : String)
    (org : ℤ × ℤ) (scale : ℚ) (c : Color) (thick : ℕ) : Store :=
  st.write r (P.putText (st.read r) text org scale c thick)

/-- One detection handed to the renderer (`{'id', 'bbox', 'confidence',
'class'}` dict built in `track_frame`). -/
structure TrackedObject where
  id : ℕ
  bbox : ℤ × ℤ × ℤ × ℤ
  confidence : ℚ
  cls : ℕ

/-- Renderer configuration captured from `Config` in `__init__`. -/
structure FrameRenderer where
  box_color : Color
  text_color : Color
  text_bg_color : Color
  panel_bg_color : Color
  panel_text_color : Color
  box_thickness : ℤ
  font_scale : ℚ
  font_thickness : ℕ
  text_padding : ℕ

/-- The renderer built from `Config`'s values. -/
def defaultRenderer : FrameRenderer :=
  ⟨(0, 255, 0), (255, 255, 255), (0, 0, 0), (50, 50, 50), (255, 255, 255),
   2, 4/5, 2, 10⟩

/-- Content-level effect of the box-drawing loop of `render_frame`:
per object, one `cv2.rectangle` with the configured color/thickness
(the label and statistics-panel drawing in the source is commented out). -/
def boxStep (P : DrawPrims) (R : FrameRenderer) (b : Buffer)
    (obj : TrackedObject) : Buffer :=
  P.rect b (obj.bbox.1, obj.bbox.2.1) (obj.bbox.2.2.1, obj.bbox.2.2.2)
    R.box_color R.box_thickness

/-- Content of the annotated frame produced by `render_frame` from a given
input-frame content. -/
def renderContent (P : DrawPrims) (R : FrameRenderer)
    (tracked_objects : List TrackedObject) (b : Buffer) : Buffer :=
  tracked_objects.foldl (boxStep P R) b

/-- `render_frame`: copy the input frame, then draw each tracked object's
bounding box on the copy and return it.  `current_count`,
`total_unique_count` and `fps` are accepted but unused: the label and
statistics-panel code in the source is commented out. -/
def render_frame (P : DrawPrims) (R : FrameRenderer) (st : Store)
    (frame : Ref) (tracked_objects : List TrackedObject)
    (current_count total_unique_count : ℕ) (fps : Option ℚ) : Store × Ref :=
  let a := st.alloc (st.read frame)
  let st2 := tracked_objects.foldl
    (fun s obj => s.write a.2 (boxStep P R (s.read a.2) obj)) a.1
  (st2, a.2)

/-- Content-level effect of `draw_bounding_box` on the frame it is given:
box rectangle, filled label-background rectangle, label text. -/
def drawBoxContent (P : DrawPrims) (R : FrameRenderer)
    (bbox : ℤ × ℤ × ℤ × ℤ) (label : String) (c : Color) (b : Buffer) :
    Buffer :=
  let x1 := bbox.1
  let y1 := bbox.2.1
  let b1 := P.rect b (x1, y1) (bbox.2.2.1, bbox.2.2.2) c R.box_thickness
  let ts := P.getTextSize label R.font_scale R.font_thickness
  let b2 := P.rect b1 (x1, y1 - ts.1.2 - ts.2 - 10) (x1 + ts.1.1 + 10, y1)
    R.text_bg_color (-1)
  P.putText b2 label (x1 + 5, y1 - 5) R.font_scale R.text_color
    R.font_thickness

/-- `draw_bounding_box`: draw the box, the label background and the label
text directly onto the frame passed in, and return that frame. -/
def draw_bounding_box (P : DrawPrims) (R : FrameRenderer) (st : Store)
    (frame : Ref) (bbox : ℤ × ℤ × ℤ × ℤ) (label : String)
    (color : Option Color) : Store × Ref :=
  let c := color.getD R.box_color
  let x1 := bbox.1
  let y1 := bbox.2.1
  let st1 := cv2_rectangle P st frame (x1, y1) (bbox.2.2.1, bbox.2.2.2) c
    R.box_thickness
  let ts := P.getTextSize label R.font_scale R.font_thickness
  let st2 := cv2_rectangle P st1 frame (x1, y1 - ts.1.2 - ts.2 - 10)
    (x1 + ts.1.1 + 10, y1) R.text_bg_color (-1)
  let st3 := cv2_putText P st2 frame label (x1 + 5, y1 - 5) R.font_scale
    R.text_color R.font_thickness
  (st3, frame)

/-! ### `get_video_files` (src/utils.py)

File names are lists of character code points.  Case mapping follows
Python `str.upper`/`str.lower` on ASCII letters; `sorted` on Python
strings is the lexicographic order on code points. -/

abbrev FileName := List ℕ

/-- ASCII uppercase of one code point. -/
def pyUpperChar (c : ℕ) : ℕ := if 97 ≤ c ∧ c ≤ 122 then c - 32 else c

/-- ASCII lowercase of one code point. -/
def pyLowerChar (c : ℕ) : ℕ := if 65 ≤ c ∧ c ≤ 90 then c + 32 else c

/-- Python `str.upper` (ASCII). -/
def pyUpper (s : FileName) : FileName := s.map pyUpperChar

/-- Python `str.lower` (ASCII). -/
def pyLower (s : FileName) : FileName := s.map pyLowerChar

/-- The default extension list of `get_video_files`:
`['.mp4', '.avi', '.mov', '.mkv', '.flv', '.wmv', '.webm']` as code
points. -/
def default_extensions : List FileName :=
  [[46, 109, 112, 52],          -- ".mp4"
   [46, 97, 118, 105],          -- ".avi"
   [46, 109, 111, 118],         -- ".mov"
   [46, 109, 107, 118],         -- ".mkv"
   [46, 102, 108, 118],         -- ".flv"
   [46, 119, 109, 118],         -- ".wmv"
   [46, 119, 101, 98, 109]]     -- ".webm"

/-- Code-point lexicographic comparison (Python `<=` on strings). -/
def strLeB : FileName → FileName → Bool
  | [], _ => true
  | _ :: _, [] => false
  | a :: as, b :: bs =>
    if a < b then true else if b < a then false else strLeB as bs

/-- `strLeB` as a relation, for sorting. -/
def strLe (a b : FileName) : Prop := strLeB a b = true

instance : DecidableRel strLe := fun a b => by
  unfold strLe
  infer_instance

/-- `file_path.glob (s!"*(pat)")` over a directory listing: the entries
the pattern matches, i.e. those ending in the literal suffix `pat`
(fnmatch semantics of `*`). -/
def globSuffix (entries : List FileName) (pat : FileName) : List FileName :=
  entries.filter (fun n => pat.isSuffixOf n)

/-- `get_video_files` on a directory whose listing is `entries`, with the
default extension list: for each extension glob `*ext` then `*ext.upper()`,
concatenate, and return `sorted(video_files)`. -/
def get_video_files_dir (entries : List FileName) : List FileName :=
  List.insertionSort strLe
    (default_extensions.foldl
      (fun acc ext => acc ++ globSuffix entries ext
        ++ globSuffix entries (pyUpper ext)) [])

/-- Claim C8's reading of the enumeration, stated from the spec's words:
files whose extension matches a known video extension under ANY mix of
letter cases, i.e. whose lowercased name ends in one of the (lowercase)
known extensions, sorted. -/
def get_video_files_claimC8 (entries : List FileName) : List FileName :=
  List.insertionSort strLe
    (entries.filter
      (fun n => default_extensions.any (fun ext => ext.isSuffixOf (pyLower n))))

/-! ### Concrete instances used by witnesses and counterexamples -/

/-- Batches of the C2 scenario: identity sets (1,2), (2,3), (), (4). -/
def demoBatches : List (List ℕ) := [[1, 2], [2, 3], [], [4]]

/-- An openable 1-frame source. -/
def demoGood1 : VideoSource := ⟨"a.mp4", true, true, [[1]]⟩

/-- A source that exists but cannot be opened. -/
def demoBad : VideoSource := ⟨"b.mp4", true, false, []⟩

/-- A second openable source. -/
def demoGood3 : VideoSource := ⟨"c.mp4", true, true, [[2]]⟩

/-- Trivial drawing primitives (identity rasterisers) for witnesses. -/
def demoPrims : DrawPrims :=
  ⟨fun b _ _ _ _ => b, fun b _ _ _ _ _ => b, fun _ _ _ => ((0, 0), 0)⟩

/-- A one-buffer store whose only frame is a single pixel. -/
def demoStore : Store := ⟨[[[(1, 2, 3)]]]⟩

/-- A single tracked object. -/
def demoObj : TrackedObject := ⟨7, (0, 0, 1, 1), 1/2, 0⟩

/-- The file name "a.Mp4" (mixed-case extension) as code points. -/
def demoMixedName : FileName := [97, 46, 77, 112, 52]

/-! ## Helper lemmas: the set model -/

theorem setUpdate_nil (l : List ℕ) : setUpdate l [] = l := rfl

theorem setUpdate_cons (l : List ℕ) (x : ℕ) (xs : List ℕ) :
    setUpdate l (x :: xs) = setUpdate (setAdd l x) xs := rfl

theorem toFinset_setAdd (l : List ℕ) (x : ℕ) :
    (setAdd l x).toFinset = insert x l.toFinset := by
  unfold setAdd
  split
  · rename_i h
    exact (Finset.insert_eq_self.mpr (List.mem_toFinset.mpr h)).symm
  · simp [List.toFinset_cons]

theorem toFinset_setUpdate : ∀ (xs l : List ℕ),
    (setUpdate l xs).toFinset = l.toFinset ∪ xs.toFinset
  | [], l => by simp [setUpdate_nil]
  | x :: xs, l => by
    rw [setUpdate_cons, toFinset_setUpdate xs (setAdd l x), toFinset_setAdd]
    simp [Finset.insert_union, Finset.union_insert, List.toFinset_cons]

theorem nodup_setAdd {l : List ℕ} (x : ℕ) (h : l.Nodup) : (setAdd l x).Nodup := by
  unfold setAdd
  split
  · exact h
  · rename_i hx
    exact List.Nodup.cons hx h

theorem nodup_setUpdate : ∀ (xs l : List ℕ), l.Nodup → (setUpdate l xs).Nodup
  | [], _, h => h
  | x :: xs, l, h => by
    rw [setUpdate_cons]
    exact nodup_setUpdate xs (setAdd l x) (nodup_setAdd x h)

theorem length_le_setAdd (l : List ℕ) (x : ℕ) :
    l.length ≤ (setAdd l x).length := by
  unfold setAdd
  split
  · exact le_refl _
  · exact Nat.le_succ _

theorem length_le_setUpdate : ∀ (xs l : List ℕ),
    l.length ≤ (setUpdate l xs).length
  | [], _ => le_refl _
  | x :: xs, l => by
    rw [setUpdate_cons]
    exact le_trans (length_le_setAdd l x) (length_le_setUpdate xs (setAdd l x))

/-! ## Helper lemmas: the statistics engine -/

theorem track_frame_fst_unique_ids (s : ObjectTracker) (batch : List ℕ) :
    (s.track_frame batch).1.unique_ids = setUpdate s.unique_ids (setUpdate [] batch) := rfl

theorem track_frame_fst_frame_number (s : ObjectTracker) (batch : List ℕ) :
    (s.track_frame batch).1.frame_number = s.frame_number + 1 := rfl

theorem track_frame_fst_current (s : ObjectTracker) (batch : List ℕ) :
    (s.track_frame batch).1.current_frame_count = (setUpdate [] batch).length := rfl

theorem runBatches_nil (s : ObjectTracker) : runBatches s [] = s := rfl

theorem runBatches_cons (s : ObjectTracker) (b : List ℕ) (bs : List (List ℕ)) :
    runBatches s (b :: bs) = runBatches (s.track_frame b).1 bs := rfl

theorem unionIds_nil : unionIds [] = ∅ := rfl

theorem unionIds_cons (b : List ℕ) (bs : List (List ℕ)) :
    unionIds (b :: bs) = b.toFinset ∪ unionIds bs := rfl

theorem runBatches_unique_toFinset : ∀ (bs : List (List ℕ)) (s : ObjectTracker),
    (runBatches s bs).unique_ids.toFinset = s.unique_ids.toFinset ∪ unionIds bs
  | [], s => by simp [runBatches_nil, unionIds_nil]
  | b :: bs, s => by
    rw [runBatches_cons, runBatches_unique_toFinset bs, track_frame_fst_unique_ids,
      toFinset_setUpdate, toFinset_setUpdate, unionIds_cons]
    simp [Finset.union_assoc]

theorem runBatches_unique_nodup : ∀ (bs : List (List ℕ)) (s : ObjectTracker),
    s.unique_ids.Nodup → (runBatches s bs).unique_ids.Nodup
  | [], _, h => h
  | b :: bs, s, h => by
    rw [runBatches_cons]
    exact runBatches_unique_nodup bs _
      (by rw [track_frame_fst_unique_ids]; exact nodup_setUpdate _ _ h)

/-! ## Claim theorems: the statistics engine -/

/-- C2: from a freshly reset engine, feeding batches with identity sets
(1,2), (2,3), (), (4) in order returns the current-count sequence
[2, 2, 0, 1]; the final snapshot has total unique count 4 and sorted
identity list [1, 2, 3, 4]. -/
theorem C2_concrete_scenario :
    ((runTrace (ObjectTracker.reset ObjectTracker.init) demoBatches).1.map Prod.fst
      = [2, 2, 0, 1]) ∧
    (ObjectTracker.get_statistics
      (runTrace (ObjectTracker.reset ObjectTracker.init) demoBatches).2).total_unique = 4 ∧
    (ObjectTracker.get_statistics
      (runTrace (ObjectTracker.reset ObjectTracker.init) demoBatches).2).unique_ids
      = [1, 2, 3, 4] := by
  decide

/-- C4: for every batch sequence fed to a freshly reset engine, the number
of seen identities equals the cardinality of the union of the batches'
identity sets, and it never decreases when one more batch is processed. -/
theorem C4_seen_identities_union :
    (∀ batches : List (List ℕ),
      (runBatches (ObjectTracker.reset ObjectTracker.init) batches).unique_ids.length
        = (unionIds batches).card) ∧
    (∀ (batches : List (List ℕ)) (b : List ℕ),
      (runBatches (ObjectTracker.reset ObjectTracker.init) batches).unique_ids.length
        ≤ (runBatches (ObjectTracker.reset ObjectTracker.init) (batches ++ [b])).unique_ids.length) := by
  constructor
  · intro bs
    have h2 : (runBatches (ObjectTracker.reset ObjectTracker.init) bs).unique_ids.Nodup :=
      runBatches_unique_nodup bs _ (by simp [ObjectTracker.reset])
    rw [← List.toFinset_card_of_nodup h2, runBatches_unique_toFinset bs]
    simp [ObjectTracker.reset]
  · intro bs b
    have hfold : runBatches (ObjectTracker.reset ObjectTracker.init) (bs ++ [b])
        = ((runBatches (ObjectTracker.reset ObjectTracker.init) bs).track_frame b).1 := by
      unfold runBatches
      rw [List.foldl_append]
      rfl
    rw [hfold, track_frame_fst_unique_ids]
    exact length_le_setUpdate _ _

/-- C5: the current-frame count never exceeds the number of seen
identities — it holds after construction, after any reset, and after any
update from any state — and both are zero at session start. -/
theorem C5_invariant :
    (ObjectTracker.init.current_frame_count = 0 ∧
      ObjectTracker.init.unique_ids.length = 0) ∧
    (∀ s : ObjectTracker,
      (ObjectTracker.reset s).current_frame_count = 0 ∧
      (ObjectTracker.reset s).unique_ids.length = 0) ∧
    (∀ (s : ObjectTracker) (batch : List ℕ),
      (s.track_frame batch).1.current_frame_count
        ≤ (s.track_frame batch).1.unique_ids.length) := by
  refine ⟨⟨rfl, rfl⟩, fun s => ⟨rfl, rfl⟩, fun s batch => ?_⟩
  rw [track_frame_fst_current, track_frame_fst_unique_ids]
  have hnd : (setUpdate [] batch).Nodup := nodup_setUpdate batch [] List.nodup_nil
  calc (setUpdate [] batch).length
      = (setUpdate [] batch).toFinset.card := (List.toFinset_card_of_nodup hnd).symm
    _ ≤ (setUpdate s.unique_ids (setUpdate [] batch)).toFinset.card := by
        apply Finset.card_le_card
        intro a ha
        rw [toFinset_setUpdate]
        exact Finset.mem_union_right _ ha
    _ ≤ (setUpdate s.unique_ids (setUpdate [] batch)).length :=
        List.toFinset_card_le _

/-- C6: resetting a used engine and feeding any batch sequence produces
exactly the returned counts and final snapshot of a never-before-used
engine fed the same sequence. -/
theorem C6_reset_equiv (s : ObjectTracker) (batches : List (List ℕ)) :
    runTrace (ObjectTracker.reset s) batches = runTrace ObjectTracker.init batches ∧
    ObjectTracker.get_statistics (runTrace (ObjectTracker.reset s) batches).2
      = ObjectTracker.get_statistics (runTrace ObjectTracker.init batches).2 :=
  ⟨rfl, rfl⟩

/-- C9: `get_statistics` leaves the engine unchanged, calling it twice
without an intervening update returns identical values, and it reports
the seen identities as a sorted rearrangement of the stored id set. -/
theorem C9_snapshot_idempotent (s : ObjectTracker) :
    (ObjectTracker.get_statistics_call s).2 = s ∧
    (ObjectTracker.get_statistics_call (ObjectTracker.get_statistics_call s).2).1
      = (ObjectTracker.get_statistics_call s).1 ∧
    List.Sorted (· ≤ ·) (ObjectTracker.get_statistics_call s).1.unique_ids ∧
    (ObjectTracker.get_statistics_call s).1.unique_ids.Perm s.unique_ids :=
  ⟨rfl, rfl, List.sorted_insertionSort _ _, List.perm_insertionSort _ _⟩

/-! ## Helper lemmas: the frame loop -/

theorem stepFrame_skip {α : Type} (skip_frames : ℕ) (track : α → List ℕ)
    (st : LoopState) (frame : α)
    (h : ¬ (skip_frames + 1) ∣ (st.frame_count + 1)) :
    stepFrame skip_frames track st frame = { st with frame_count := st.frame_count + 1 } := by
  have hpos : skip_frames > 0 := by
    rcases Nat.eq_zero_or_pos skip_frames with h0 | h0
    · exact absurd (by simp [h0]) h
    · exact h0
  have hmod : (st.frame_count + 1) % (skip_frames + 1) ≠ 0 := fun hz =>
    h (Nat.dvd_iff_mod_eq_zero.mpr hz)
  unfold stepFrame
  rw [if_pos ⟨hpos, hmod⟩]

theorem stepFrame_process {α : Type} (skip_frames : ℕ) (track : α → List ℕ)
    (st : LoopState) (frame : α)
    (h : (skip_frames + 1) ∣ (st.frame_count + 1)) :
    stepFrame skip_frames track st frame
      = { frame_count := st.frame_count + 1,
          processed_count := st.processed_count + 1,
          processed_indices := st.processed_indices ++ [st.frame_count + 1],
          tracker := (st.tracker.track_frame (track frame)).1 } := by
  have hmod : (st.frame_count + 1) % (skip_frames + 1) = 0 :=
    Nat.dvd_iff_mod_eq_zero.mp h
  unfold stepFrame
  rw [if_neg]
  rintro ⟨-, hne⟩
  exact hne hmod

theorem processLoop_spec {α : Type} (skip_frames : ℕ) (track : α → List ℕ) :
    ∀ (frames : List α) (st : LoopState),
      (frames.foldl (stepFrame skip_frames track) st).frame_count
        = st.frame_count + frames.length ∧
      (frames.foldl (stepFrame skip_frames track) st).processed_indices
        = st.processed_indices
          ++ (List.range' (st.frame_count + 1) frames.length).filter
              (fun i => decide ((skip_frames + 1) ∣ i)) ∧
      (frames.foldl (stepFrame skip_frames track) st).processed_count
        = st.processed_count
          + ((List.range' (st.frame_count + 1) frames.length).filter
              (fun i => decide ((skip_frames + 1) ∣ i))).length ∧
      (frames.foldl (stepFrame skip_frames track) st).tracker.frame_number
        = st.tracker.frame_number
          + ((List.range' (st.frame_count + 1) frames.length).filter
              (fun i => decide ((skip_frames + 1) ∣ i))).length
  | [], st => by simp
  | f :: fs, st => by
    by_cases hd : (skip_frames + 1) ∣ (st.frame_count + 1)
    · obtain ⟨ih1, ih2, ih3, ih4⟩ :=
        processLoop_spec skip_frames track fs
          { frame_count := st.frame_count + 1,
            processed_count := st.processed_count + 1,
            processed_indices := st.processed_indices ++ [st.frame_count + 1],
            tracker := (st.tracker.track_frame (track f)).1 }
      dsimp only at ih1 ih2 ih3 ih4
      rw [List.foldl_cons, stepFrame_process skip_frames track st f hd]
      rw [List.length_cons, List.range'_succ, List.filter_cons]
      simp only [decide_eq_true hd, if_true]
      refine ⟨by rw [ih1]; omega, ?_, ?_, ?_⟩
      · rw [ih2]
        simp [List.append_assoc]
      · rw [ih3]
        simp only [List.length_cons]
        omega
      · rw [ih4, track_frame_fst_frame_number]
        simp only [List.length_cons]
        omega
    · obtain ⟨ih1, ih2, ih3, ih4⟩ :=
        processLoop_spec skip_frames track fs { st with frame_count := st.frame_count + 1 }
      dsimp only at ih1 ih2 ih3 ih4
      rw [List.foldl_cons, stepFrame_skip skip_frames track st f hd]
      rw [List.length_cons, List.range'_succ, List.filter_cons]
      simp only [decide_eq_false hd, Bool.false_eq_true, if_false]
      exact ⟨by rw [ih1]; omega, by rw [ih2], by rw [ih3], by rw [ih4]⟩

/-! ## Claim theorem: the skip-frame policy -/

/-- C3: for every skip count and every input stream, the frames fed to
the tracker are exactly those whose 1-based index is a multiple of
`skip_frames + 1` (recorded in order); the processed count and the
tracker's frame counter both equal the number of such indices, so skipped
frames invoke neither; concretely, a 10-frame stream with skip count 1
processes frames 2, 4, 6, 8, 10 and ends with 5 frames processed. -/
theorem C3_skip_frame_policy :
    (∀ (α : Type) (skip_frames : ℕ) (track : α → List ℕ) (frames : List α),
      (processFrames skip_frames track frames).processed_indices
        = (List.range' 1 frames.length).filter
            (fun i => decide ((skip_frames + 1) ∣ i)) ∧
      (processFrames skip_frames track frames).processed_count
        = ((List.range' 1 frames.length).filter
            (fun i => decide ((skip_frames + 1) ∣ i))).length ∧
      (processFrames skip_frames track frames).tracker.frame_number
        = ((List.range' 1 frames.length).filter
            (fun i => decide ((skip_frames + 1) ∣ i))).length) ∧
    ((processFrames 1 (fun _ => [0]) (List.replicate 10 0)).processed_indices
        = [2, 4, 6, 8, 10] ∧
     (processFrames 1 (fun _ => [0]) (List.replicate 10 0)).processed_count = 5 ∧
     (ObjectTracker.get_statistics
        (processFrames 1 (fun _ => [0]) (List.replicate 10 0)).tracker).frames_processed
        = 5) := by
  refine ⟨fun α skip_frames track frames => ?_, by decide, by decide, by decide⟩
  obtain ⟨-, h2, h3, h4⟩ := processLoop_spec skip_frames track frames initLoop
  unfold processFrames
  exact ⟨by simpa [initLoop] using h2, by simpa [initLoop] using h3,
    by simpa [initLoop, ObjectTracker.reset] using h4⟩

/-! ## Claim theorems: the batch controller -/

/-- C1 counterexample: for a batch of 3 sources whose 2nd exists but
cannot be opened, `process_multiple_videos` does not return 3
SessionResults — it propagates the 2nd session's open error and returns
no result list at all. -/
theorem C1_counterexample :
    process_multiple_videos [demoGood1, demoBad, demoGood3]
      = Except.error (VPError.couldNotOpen "b.mp4") ∧
    (process_multiple_videos [demoGood1, demoBad, demoGood3]).toOption
      = Option.none :=
  ⟨rfl, rfl⟩

/-- C1 amended: a failure of one session aborts the batch.  For every
batch of 3 sources whose 2nd exists but cannot be opened, the batch
raises the 2nd source's open error to the caller (whatever the 1st and
3rd sources are), so no list of SessionResults is produced. -/
theorem C1_amended_batch_aborts (g1 bad g3 : VideoSource)
    (h1 : g1.present = true) (h2 : g1.openable = true)
    (h3 : bad.present = true) (h4 : bad.openable = false) :
    process_multiple_videos [g1, bad, g3]
      = Except.error (VPError.couldNotOpen bad.path) := by
  simp [process_multiple_videos, process_video, h1, h2, h3, h4]

/-- Witness for the amended C1 at a concrete 3-source batch. -/
theorem C1_amended_witness :
    (demoGood1.present = true ∧ demoGood1.openable = true ∧
     demoBad.present = true ∧ demoBad.openable = false) ∧
    process_multiple_videos [demoGood1, demoBad, demoGood3]
      = Except.error (VPError.couldNotOpen demoBad.path) :=
  ⟨⟨rfl, rfl, rfl, rfl⟩,
   C1_amended_batch_aborts demoGood1 demoBad demoGood3 rfl rfl rfl rfl⟩

/-! ## Helper lemmas: the buffer store -/

theorem Store.length_write (st : Store) (r : Ref) (b : Buffer) :
    (st.write r b).bufs.length = st.bufs.length :=
  List.length_set st.bufs r b

theorem Store.read_write_self (st : Store) {r : Ref} (b : Buffer)
    (h : r < st.bufs.length) : (st.write r b).read r = b := by
  simp [Store.read, Store.write, List.getD_eq_getElem?_getD,
    List.getElem?_set_self h]

theorem Store.read_write_ne (st : Store) {r r' : Ref} (b : Buffer)
    (h : r ≠ r') : (st.write r b).read r' = st.read r' := by
  simp [Store.read, Store.write, List.getD_eq_getElem?_getD,
    List.getElem?_set_ne h]

theorem foldWrite_spec (g : Buffer → TrackedObject → Buffer) (a : Ref) :
    ∀ (objs : List TrackedObject) (st : Store), a < st.bufs.length →
      ((objs.foldl (fun s obj => s.write a (g (s.read a) obj)) st).bufs.length
          = st.bufs.length ∧
       (∀ r, r ≠ a →
          (objs.foldl (fun s obj => s.write a (g (s.read a) obj)) st).read r
            = st.read r) ∧
       (objs.foldl (fun s obj => s.write a (g (s.read a) obj)) st).read a
          = objs.foldl g (st.read a))
  | [], _, _ => ⟨rfl, fun _ _ => rfl, rfl⟩
  | obj :: objs, st, h => by
    have hlen : (st.write a (g (st.read a) obj)).bufs.length = st.bufs.length :=
      Store.length_write st a _
    obtain ⟨ih1, ih2, ih3⟩ :=
      foldWrite_spec g a objs (st.write a (g (st.read a) obj))
        (by rw [hlen]; exact h)
    refine ⟨?_, ?_, ?_⟩
    · rw [List.foldl_cons, ih1, hlen]
    · intro r hr
      rw [List.foldl_cons, ih2 r hr, Store.read_write_ne st _ (Ne.symm hr)]
    · rw [List.foldl_cons, ih3, Store.read_write_self st _ h, List.foldl_cons]

theorem Store.read_alloc_old (st : Store) (b : Buffer) {r : Ref}
    (h : r < st.bufs.length) : (Store.mk (st.bufs ++ [b])).read r = st.read r := by
  show (st.bufs ++ [b]).getD r [] = st.bufs.getD r []
  rw [List.getD_eq_getElem?_getD, List.getD_eq_getElem?_getD,
    List.getElem?_append, if_pos h]

theorem Store.read_alloc_new (st : Store) (b : Buffer) :
    (Store.mk (st.bufs ++ [b])).read st.bufs.length = b := by
  show (st.bufs ++ [b]).getD st.bufs.length [] = b
  rw [List.getD_eq_getElem?_getD, List.getElem?_append,
    if_neg (lt_irrefl _), Nat.sub_self]
  rfl

theorem render_frame_spec (P : DrawPrims) (R : FrameRenderer) (st : Store)
    (frame : Ref) (objs : List TrackedObject) (cc tuc : ℕ) (fps : Option ℚ)
    (h : frame < st.bufs.length) :
    (render_frame P R st frame objs cc tuc fps).2 = st.bufs.length ∧
    (render_frame P R st frame objs cc tuc fps).1.bufs.length
      = st.bufs.length + 1 ∧
    (render_frame P R st frame objs cc tuc fps).1.read frame = st.read frame ∧
    (render_frame P R st frame objs cc tuc fps).1.read st.bufs.length
      = renderContent P R objs (st.read frame) := by
  obtain ⟨h1, h2, h3⟩ :=
    foldWrite_spec (boxStep P R) st.bufs.length objs
      (Store.mk (st.bufs ++ [st.read frame])) (by simp)
  have hread_old := Store.read_alloc_old st (st.read frame) h
  have hread_new := Store.read_alloc_new st (st.read frame)
  have hne : frame ≠ st.bufs.length := Nat.ne_of_lt h
  unfold render_frame Store.alloc
  dsimp only
  refine ⟨rfl, ?_, ?_, ?_⟩
  · rw [h1]
    simp
  · rw [h2 frame hne, hread_old]
  · rw [h3, hread_new]
    rfl

/-! ## Claim theorems: the renderer -/

/-- C7: `render_frame` is pure with respect to its inputs: it returns a
freshly allocated buffer (not the input reference), the input frame
buffer's content is bit-identical after the call, the output content is a
function of the input frame content alone, and an immediately repeated
invocation on the same inputs produces bit-identical output. -/
theorem C7_render_frame_pure (P : DrawPrims) (R : FrameRenderer) (st : Store)
    (frame : Ref) (objs : List TrackedObject) (cc tuc : ℕ) (fps : Option ℚ)
    (h : frame < st.bufs.length) :
    (render_frame P R st frame objs cc tuc fps).2 = st.bufs.length ∧
    (render_frame P R st frame objs cc tuc fps).2 ≠ frame ∧
    (render_frame P R st frame objs cc tuc fps).1.read frame = st.read frame ∧
    (render_frame P R st frame objs cc tuc fps).1.read
        (render_frame P R st frame objs cc tuc fps).2
      = renderContent P R objs (st.read frame) ∧
    (render_frame P R (render_frame P R st frame objs cc tuc fps).1 frame objs
        cc tuc fps).1.read
      (render_frame P R (render_frame P R st frame objs cc tuc fps).1 frame objs
        cc tuc fps).2
      = (render_frame P R st frame objs cc tuc fps).1.read
          (render_frame P R st frame objs cc tuc fps).2 := by
  obtain ⟨h1, h2, h3, h4⟩ := render_frame_spec P R st frame objs cc tuc fps h
  have h' : frame < (render_frame P R st frame objs cc tuc fps).1.bufs.length := by
    rw [h2]
    exact Nat.lt_succ_of_lt h
  obtain ⟨g1, g2, g3, g4⟩ :=
    render_frame_spec P R (render_frame P R st frame objs cc tuc fps).1 frame
      objs cc tuc fps h'
  refine ⟨h1, ?_, h3, ?_, ?_⟩
  · rw [h1]
    exact (Nat.ne_of_lt h).symm
  · rw [h1]
    exact h4
  · rw [g1, g4, h3, h1, h4]

/-- Witness for C7 at concrete primitives, store, and object list. -/
theorem C7_witness :
    (0 < demoStore.bufs.length) ∧
    ((render_frame demoPrims defaultRenderer demoStore 0 [demoObj] 1 1
        Option.none).2 = 1 ∧
     (render_frame demoPrims defaultRenderer demoStore 0 [demoObj] 1 1
        Option.none).1.read 0 = demoStore.read 0) :=
  ⟨by decide,
   (C7_render_frame_pure demoPrims defaultRenderer demoStore 0 [demoObj] 1 1
      Option.none (by decide)).1,
   (C7_render_frame_pure demoPrims defaultRenderer demoStore 0 [demoObj] 1 1
      Option.none (by decide)).2.2.1⟩

/-- C10: `draw_bounding_box` mutates the frame passed to it in place —
the box, label background and label text are drawn directly onto that
buffer, no new buffer is allocated, every other buffer is untouched — and
it returns the very same reference it was given, not a copy. -/
theorem C10_draw_bounding_box_in_place (P : DrawPrims) (R : FrameRenderer)
    (st : Store) (frame : Ref) (bbox : ℤ × ℤ × ℤ × ℤ) (label : String)
    (color : Option Color) (h : frame < st.bufs.length) :
    (draw_bounding_box P R st frame bbox label color).2 = frame ∧
    (draw_bounding_box P R st frame bbox label color).1.bufs.length
      = st.bufs.length ∧
    (draw_bounding_box P R st frame bbox label color).1.read frame
      = drawBoxContent P R bbox label (color.getD R.box_color) (st.read frame) ∧
    (∀ r, r ≠ frame →
      (draw_bounding_box P R st frame bbox label color).1.read r
        = st.read r) := by
  have e1 : ∀ (s : Store) (b : Buffer), (s.write frame b).bufs.length = s.bufs.length :=
    fun s b => Store.length_write s frame b
  unfold draw_bounding_box drawBoxContent cv2_rectangle cv2_putText
  dsimp only
  refine ⟨rfl, ?_, ?_, ?_⟩
  · rw [e1, e1, e1]
  · rw [Store.read_write_self _ _ (by rw [e1, e1]; exact h),
      Store.read_write_self _ _ (by rw [e1]; exact h),
      Store.read_write_self _ _ h]
  · intro r hr
    rw [Store.read_write_ne _ _ (Ne.symm hr), Store.read_write_ne _ _ (Ne.symm hr),
      Store.read_write_ne _ _ (Ne.symm hr)]

/-- Witness for C10 at concrete primitives, store, box and label. -/
theorem C10_witness :
    (0 < demoStore.bufs.length) ∧
    ((draw_bounding_box demoPrims defaultRenderer demoStore 0 (0, 0, 1, 1) ""
        Option.none).2 = 0 ∧
     (draw_bounding_box demoPrims defaultRenderer demoStore 0 (0, 0, 1, 1) ""
        Option.none).1.bufs.length = demoStore.bufs.length) :=
  ⟨by decide,
   (C10_draw_bounding_box_in_place demoPrims defaultRenderer demoStore 0
      (0, 0, 1, 1) "" Option.none (by decide)).1,
   (C10_draw_bounding_box_in_place demoPrims defaultRenderer demoStore 0
      (0, 0, 1, 1) "" Option.none (by decide)).2.1⟩

/-! ## Helper lemmas: source enumeration -/

theorem strLeB_total : ∀ a b : FileName, strLeB a b = true ∨ strLeB b a = true
  | [], _ => Or.inl rfl
  | _ :: _, [] => Or.inr rfl
  | a :: as, b :: bs => by
    rcases Nat.lt_trichotomy a b with h | h | h
    · left
      unfold strLeB
      rw [if_pos h]
    · subst h
      rcases strLeB_total as bs with ih | ih
      · left
        unfold strLeB
        rw [if_neg (lt_irrefl a), if_neg (lt_irrefl a)]
        exact ih
      · right
        unfold strLeB
        rw [if_neg (lt_irrefl a), if_neg (lt_irrefl a)]
        exact ih
    · right
      unfold strLeB
      rw [if_pos h]

theorem strLeB_trans : ∀ a b c : FileName,
    strLeB a b = true → strLeB b c = true → strLeB a c = true
  | [], _, _, _, _ => rfl
  | _ :: _, [], _, h1, _ => by
    rw [strLeB] at h1
    exact absurd h1 (by simp)
  | _ :: _, _ :: _, [], _, h2 => by
    rw [strLeB] at h2
    exact absurd h2 (by simp)
  | a :: as, b :: bs, c :: cs, h1, h2 => by
    unfold strLeB at h1 h2 ⊢
    rcases Nat.lt_trichotomy a b with hab | hab | hab
    · rcases Nat.lt_trichotomy b c with hbc | hbc | hbc
      · rw [if_pos (Nat.lt_trans hab hbc)]
      · subst hbc
        rw [if_pos hab]
      · rw [if_neg (by omega), if_pos hbc] at h2
        exact absurd h2 (by simp)
    · subst hab
      rcases Nat.lt_trichotomy a c with hac | hac | hac
      · rw [if_pos hac]
      · subst hac
        rw [if_neg (lt_irrefl a), if_neg (lt_irrefl a)] at h1 h2 ⊢
        exact strLeB_trans as bs cs h1 h2
      · rw [if_neg (by omega), if_pos hac] at h2
        exact absurd h2 (by simp)
    · rw [if_neg (by omega), if_pos hab] at h1
      exact absurd h1 (by simp)

instance : IsTotal FileName strLe := ⟨strLeB_total⟩

instance : IsTrans FileName strLe := ⟨strLeB_trans⟩

theorem mem_foldl_append (g : FileName → List FileName) :
    ∀ (exts : List FileName) (acc : List FileName) (x : FileName),
      (x ∈ exts.foldl (fun l e => l ++ g e) acc ↔ x ∈ acc ∨ ∃ e ∈ exts, x ∈ g e)
  | [], acc, x => by simp
  | e :: exts, acc, x => by
    rw [List.foldl_cons, mem_foldl_append g exts (acc ++ g e) x]
    simp [List.mem_append, or_assoc]

theorem mem_get_video_files_dir (entries : List FileName) (x : FileName) :
    x ∈ get_video_files_dir entries ↔
      x ∈ entries ∧ ∃ ext ∈ default_extensions,
        (ext.isSuffixOf x = true ∨ (pyUpper ext).isSuffixOf x = true) := by
  unfold get_video_files_dir
  rw [List.mem_insertionSort]
  have hfun : (fun (acc : List FileName) ext => acc ++ globSuffix entries ext
        ++ globSuffix entries (pyUpper ext))
      = (fun acc ext =>
          acc ++ (globSuffix entries ext ++ globSuffix entries (pyUpper ext))) := by
    funext acc ext
    rw [List.append_assoc]
  rw [hfun, mem_foldl_append]
  simp only [List.not_mem_nil, false_or, globSuffix, List.mem_filter,
    List.mem_append]
  constructor
  · rintro ⟨e, he, ⟨hx, hs⟩ | ⟨hx, hs⟩⟩
    · exact ⟨hx, e, he, Or.inl hs⟩
    · exact ⟨hx, e, he, Or.inr hs⟩
  · rintro ⟨hx, e, he, hs | hs⟩
    · exact ⟨e, he, Or.inl ⟨hx, hs⟩⟩
    · exact ⟨e, he, Or.inr ⟨hx, hs⟩⟩

/-! ## Claim theorems: source enumeration -/

/-- C8 counterexample: the directory entry "a.Mp4" has a known video
extension up to letter case, so the claim's case-insensitive reading
returns it, but `get_video_files` returns the empty list: the code only
globs the all-lowercase and all-uppercase spellings, not mixed case. -/
theorem C8_counterexample :
    get_video_files_dir [demoMixedName] = [] ∧
    get_video_files_claimC8 [demoMixedName] = [demoMixedName] :=
  ⟨by decide, by decide⟩

/-- C8 amended: for every directory listing, `get_video_files` returns
exactly the entries whose name ends in the all-lowercase or the
all-uppercase spelling of a known video extension (mixed-case extensions
are not matched), sorted for determinism. -/
theorem C8_amended_extension_match (entries : List FileName) (x : FileName) :
    (x ∈ get_video_files_dir entries ↔
      x ∈ entries ∧ ∃ ext ∈ default_extensions,
        (ext.isSuffixOf x = true ∨ (pyUpper ext).isSuffixOf x = true)) ∧
    List.Sorted strLe (get_video_files_dir entries) :=
  ⟨mem_get_video_files_dir entries x, List.sorted_insertionSort strLe _⟩
